import Mathlib

/-!
Shallow embedding of the exam-attempt lifecycle engine of the fastquiz
repository (src/routes/route.py, src/models/models.py, src/schema/schemas.py,
src/config/auth.py), together with theorems settling the frozen claims about
its specification.

Modelling conventions:
* SQLAlchemy tables become Lean structures; the database session becomes an
  explicit `DB` record of lists of rows.  A route handler becomes a function
  `DB → ... → Except ApiError Result × DB`, where the returned `DB` is the
  committed state after the call (on an error path: the last committed state,
  since `get_db` in src/config/database.py closes the session without
  committing, discarding uncommitted ORM mutations).
* Timestamps are integers: a calendar date is a day number, a time of day is
  seconds since midnight, and `datetime.combine d t = d * 86400 + t` gives an
  absolute timestamp in seconds.  `timedelta(minutes=m)` is `m * 60` seconds.
* Python exceptions surface as `ApiError`: `http` models a raised
  `HTTPException`, `attributeError` models an uncaught `AttributeError`
  (FastAPI turns it into a 500 response), and `validationError` models an
  uncaught pydantic `ValidationError` on the response model.

A load-bearing fact about the source, used repeatedly below: the `Question`
model (src/models/models.py lines 77-86) declares the columns `id`,
`question_text`, `correct_option_id`, `question_number`, `group_id` and no
`schedule_id` column — questions are linked to a schedule only through
`QuestionGroup.schedule_id`.  Every access to `models.Question.schedule_id`
(route.py lines 172, 247, 258, 330) therefore raises `AttributeError` at
request time, because a SQLAlchemy declarative class has no attribute
fallback for undeclared columns.
-/

set_option linter.unusedVariables false

namespace FastQuiz

/-- src/models/models.py lines 14-21 (`Student`). -/
structure Student where
  id : Nat
  full_name : String
  reg_number : String
  class_id : Nat
deriving Repr, DecidableEq

/-- src/models/models.py lines 98-102 (`Subject`). -/
structure Subject where
  id : Nat
  name : String
deriving Repr, DecidableEq

/-- src/models/models.py lines 23-35 (`ExamSchedule`).  `exam_date` is a day
number, `start_time` seconds since midnight, `duration_minutes` minutes. -/
structure ExamSchedule where
  id : Nat
  subject_id : Nat
  class_id : Nat
  exam_date : Int
  start_time : Int
  duration_minutes : Int
  exam_password : String
deriving Repr, DecidableEq

/-- src/models/models.py lines 88-96 (`QuestionGroup`). -/
structure QuestionGroup where
  id : Nat
  schedule_id : Nat
  instruction_text : String
  group_title : Option String
  display_order : Int
deriving Repr, DecidableEq

/-- src/models/models.py lines 77-86 (`Question`).  The declared columns are
exactly `id`, `question_text`, `correct_option_id`, `question_number` and
`group_id`; there is deliberately no `schedule_id` field here, mirroring the
source model. -/
structure Question where
  id : Nat
  question_text : String
  correct_option_id : Nat
  question_number : Int
  group_id : Nat
deriving Repr, DecidableEq

/-- src/models/models.py lines 70-75 (`Option`); renamed because `Option` is a
core Lean name. -/
structure AnswerOption where
  id : Nat
  option_text : String
  question_id : Nat
deriving Repr, DecidableEq

/-- src/models/models.py lines 37-48 (`ScheduledAttempt`).  `start_time` is an
absolute timestamp in seconds; `end_time` is `none` while the attempt is
open. -/
structure ScheduledAttempt where
  id : Nat
  student_id : Nat
  schedule_id : Nat
  start_time : Int
  end_time : Option Int
  score : Int
deriving Repr, DecidableEq

/-- src/models/models.py lines 50-59 (`UserAnswer`). -/
structure UserAnswer where
  id : Nat
  attempt_id : Nat
  question_id : Nat
  selected_option_id : Nat
  is_correct : Bool
  correct_option_id : Nat
  answered_at : Int
deriving Repr, DecidableEq

/-- src/models/models.py lines 61-68 (`FinalReport`); the serialized
`subject_scores_json` string is modelled by its four parsed fields
(src/schema/schemas.py lines 76-80). -/
structure FinalReport where
  id : Nat
  attempt_id : Nat
  final_score : Int
  time_taken_seconds : Int
  subject_id : Nat
  subject_name : String
  correct_answers : Int
  total_answered_questions : Int
deriving Repr, DecidableEq

/-- The database state: one list of rows per table used by the exam-session
routes. -/
structure DB where
  students : List Student
  subjects : List Subject
  schedules : List ExamSchedule
  groups : List QuestionGroup
  questions : List Question
  options : List AnswerOption
  attempts : List ScheduledAttempt
  answers : List UserAnswer
  reports : List FinalReport
deriving Repr, DecidableEq

/-- Outcome of a request that does not return normally.  `http c d` is a
raised HTTPException with that status code and detail; `attributeError`
models an uncaught Python `AttributeError` (HTTP 500); `validationError`
models an uncaught pydantic `ValidationError` on the response model
(HTTP 500). -/
inductive ApiError where
  | http (statusCode : Nat) (detail : String)
  | attributeError (message : String)
  | validationError (message : String)
deriving Repr, DecidableEq

/-- The claim set carried by the JWT issued on login: src/routes/route.py
lines 54-59 and src/config/auth.py lines 15-24. -/
structure ExamAuthToken where
  sub : String
  student_id : Nat
  class_id : Nat
  schedule_id : Nat
deriving Repr, DecidableEq

/-- src/schema/schemas.py lines 197-206 (`ExamStartResponse`), as a result
type; the success path of the start route never actually constructs it (see
`start_window_and_payload`). -/
structure StartPayload where
  attempt_id : Nat
  schedule_id : Nat
  subject_name : String
  duration_minutes : Int
  total_questions : Nat
deriving Repr, DecidableEq

/-- src/schema/schemas.py lines 237-242 (`AnswerValidationResponse`). -/
structure AnswerValidationResponse where
  is_correct : Bool
  correct_option_id : Nat
  user_selected_option_id : Nat
deriving Repr, DecidableEq

/-- src/schema/schemas.py lines 225-235 (`ExamResult`), as a result type. -/
structure ExamResult where
  attempt_id : Nat
  final_score : Int
  total_questions : Nat
  percentage_score : ℚ
  time_taken_seconds : Int
  is_time_up_submission : Bool
deriving Repr, DecidableEq

/-- In-place update of the first element satisfying `p`, modelling a mutation
of the single row returned by a SQLAlchemy `.first()` query followed by
`db.commit()`. -/
def update_first (p : α → Bool) (f : α → α) : List α → List α
  | [] => []
  | x :: xs => if p x then f x :: xs else x :: update_first p f xs

/-- Autoincrement primary key for a fresh `scheduled_attempts` row. -/
def next_attempt_id (l : List ScheduledAttempt) : Nat :=
  l.foldr (fun a m => max a.id m) 0 + 1

/-- route.py lines 125-127: `sum(len(group.questions) for group in
exam_schedule.question_groups)` — groups are the schedule's groups, each
group's questions are the rows with that `group_id`. -/
def total_questions_of (db : DB) (schedule_id : Nat) : Nat :=
  (((db.groups.filter (fun g => g.schedule_id == schedule_id)).map
    (fun g => (db.questions.filter (fun q => q.group_id == g.id)).length)).sum)

/-- src/routes/route.py lines 19-63 (`exam_login`).  `today` is the current
day number (`date.today()`), `nowTime` the current time of day in seconds
(`datetime.now().time()`).  Returns the claim set of the issued token. -/
def exam_login (db : DB) (reg_number exam_password : String)
    (today nowTime : Int) : Except ApiError ExamAuthToken :=
  match db.students.find? (fun st => st.reg_number == reg_number) with
  | none => .error (.http 401 "Invalid Registration Number or Exam Password.")
  | some student_model =>
    match db.schedules.find? (fun s => s.exam_password == exam_password &&
        s.exam_date == today && s.class_id == student_model.class_id) with
    | none => .error (.http 401
        "Invalid Exam Password, or the exam is not scheduled for your class today.")
    | some schedule_model =>
      let start_dt := today * 86400 + schedule_model.start_time
      -- route.py line 44 computes end_dt; it is never compared with now_dt.
      let end_dt := start_dt + schedule_model.duration_minutes * 60
      let now_dt := today * 86400 + nowTime
      if now_dt < start_dt then
        -- The source interpolates the schedule's start time into this detail
        -- string; the fixed prefix stands for the full formatted message.
        .error (.http 403 "This exam has not yet started. Scheduled start time is ...")
      else
        .ok { sub := student_model.reg_number
              student_id := student_model.id
              class_id := student_model.class_id
              schedule_id := schedule_model.id }

/-- route.py lines 110-140: the tail of the start route shared by the resume
and create paths.  `db` is the state already containing the (re)used attempt.
On the success path the source builds `response_data` (lines 132-138, reading
`exam_schedule.subject.name`, an `AttributeError` if the subject row is
missing) and then calls `ExamStartResponse.model_validate` (line 140); the
schema (src/schema/schemas.py lines 197-206) requires a `total_questions`
field that `response_data` does not contain, so validation raises
unconditionally and the route never returns a payload. -/
def start_window_and_payload (db : DB) (exam_schedule : ExamSchedule)
    (schedule_id : Nat) (today nowTime : Int) :
    Except ApiError StartPayload × DB :=
  let now_dt := today * 86400 + nowTime
  let schedule_start_dt := exam_schedule.exam_date * 86400 + exam_schedule.start_time
  let schedule_end_dt := schedule_start_dt + exam_schedule.duration_minutes * 60
  if exam_schedule.exam_date != today then
    (.error (.http 403 "This exam is not scheduled for today."), db)
  else if ¬ (schedule_start_dt ≤ now_dt ∧ now_dt ≤ schedule_end_dt) then
    if now_dt < schedule_start_dt then
      (.error (.http 403 "The exam has not yet started."), db)
    else
      (.error (.http 403 "The exam period has elapsed. It is now closed."), db)
  else
    if total_questions_of db schedule_id == 0 then
      (.error (.http 404 "No questions found for this exam schedule."), db)
    else
      match db.subjects.find? (fun su => su.id == exam_schedule.subject_id) with
      | none =>
        (.error (.attributeError "NoneType object has no attribute name"), db)
      | some _subject =>
        (.error (.validationError
          "ExamStartResponse: total_questions Field required"), db)

/-- src/routes/route.py lines 68-140 (`start_exam_session`).  `student_id`
and `current_class_id` come from the verified token.  A freshly created
attempt is committed immediately (lines 106-107), before the date, window and
question-count checks. -/
def start_exam_session (db : DB) (student_id current_class_id schedule_id : Nat)
    (today nowTime : Int) : Except ApiError StartPayload × DB :=
  match db.schedules.find? (fun s => s.id == schedule_id) with
  | none => (.error (.http 404 "Exam Schedule not found."), db)
  | some exam_schedule =>
    if exam_schedule.class_id != current_class_id then
      (.error (.http 403 "Access denied. This exam is not scheduled for your class."), db)
    else
      match db.attempts.find? (fun a =>
          a.student_id == student_id && a.schedule_id == schedule_id) with
      | some existing_attempt =>
        if existing_attempt.end_time.isNone then
          start_window_and_payload db exam_schedule schedule_id today nowTime
        else
          (.error (.http 400 "This exam has already been completed and submitted."), db)
      | none =>
        let new_attempt : ScheduledAttempt :=
          { id := next_attempt_id db.attempts
            student_id := student_id
            schedule_id := schedule_id
            start_time := today * 86400 + nowTime
            end_time := none
            score := 0 }
        let db1 : DB := { db with attempts := db.attempts ++ [new_attempt] }
        start_window_and_payload db1 exam_schedule schedule_id today nowTime

/-- route.py lines 165-166: `attempt_model.end_time = now_utc; db.commit()` —
set `end_time` on the row with the given primary key. -/
def close_attempt (now_utc : Int) (aid : Nat) (l : List ScheduledAttempt) :
    List ScheduledAttempt :=
  update_first (fun a => a.id == aid) (fun a => { a with end_time := some now_utc }) l

/-- src/routes/route.py lines 178-209: the answer upsert and score update of
`submit_answer`, as a standalone state transformer on the answers table and
the attempt's score.  (In the deployed route this fragment is unreachable:
the question lookup on lines 170-173 raises first; see `submit_answer`.)
Returns the new answers table, the new score and `is_correct`. -/
def answer_upsert (answers : List UserAnswer) (score : Int) (attempt_id : Nat)
    (question_model : Question) (selected_option_id : Nat) (now_utc : Int)
    (fresh_id : Nat) : List UserAnswer × Int × Bool :=
  let is_correct := selected_option_id == question_model.correct_option_id
  match answers.find? (fun ua =>
      ua.attempt_id == attempt_id && ua.question_id == question_model.id) with
  | some existing_answer =>
    let score1 := if existing_answer.is_correct then score - 1 else score
    -- lines 189-191 overwrite selection, correctness and timestamp; the
    -- stored correct_option_id is not touched on this path.
    let answers1 := update_first (fun ua =>
        ua.attempt_id == attempt_id && ua.question_id == question_model.id)
      (fun ua => { ua with
          selected_option_id := selected_option_id
          is_correct := is_correct
          answered_at := now_utc }) answers
    (answers1, (if is_correct then score1 + 1 else score1), is_correct)
  | none =>
    let answers1 := answers ++ [{
        id := fresh_id
        attempt_id := attempt_id
        question_id := question_model.id
        selected_option_id := selected_option_id
        is_correct := is_correct
        correct_option_id := question_model.correct_option_id
        answered_at := now_utc }]
    (answers1, (if is_correct then score + 1 else score), is_correct)

/-- src/routes/route.py lines 143-215 (`submit_answer`).  After the
ownership, state and window checks, line 170-173 evaluates
`models.Question.schedule_id`, an attribute the `Question` model does not
declare, so every call that reaches the question lookup raises
`AttributeError` and nothing below line 176 — including the upsert fragment
`answer_upsert` — ever executes.  The expiry branch (lines 164-168) commits
`end_time := now` before raising. -/
def submit_answer (db : DB) (student_id attempt_id question_id selected_option_id : Nat)
    (now_utc : Int) : Except ApiError AnswerValidationResponse × DB :=
  match db.attempts.find? (fun a =>
      a.id == attempt_id && a.student_id == student_id) with
  | none => (.error (.http 404 "Exam Attempt not found or access denied."), db)
  | some attempt_model =>
    if attempt_model.end_time.isSome then
      (.error (.http 400 "This exam has already concluded and cannot accept more answers."), db)
    else
      -- line 155 loads the lazy `attempt_model.schedule` relationship; a
      -- missing schedule row dereferences as None at line 161.
      match db.schedules.find? (fun s => s.id == attempt_model.schedule_id) with
      | none =>
        (.error (.attributeError "NoneType object has no attribute duration_minutes"), db)
      | some schedule_model =>
        if now_utc > attempt_model.start_time + schedule_model.duration_minutes * 60 then
          (.error (.http 403
              "Time limit reached. Exam has been auto-submitted. Answer not recorded."),
           { db with attempts := close_attempt now_utc attempt_model.id db.attempts })
        else
          (.error (.attributeError
              "type object Question has no attribute schedule_id"), db)

/-- src/routes/route.py lines 218-301 (`finish_exam_session`).  Lines 236-242
compute the elapsed time and `is_time_up` and line 244 sets `end_time` on the
in-memory row, but line 246-248 then evaluates `models.Question.schedule_id`
(undeclared column), raising `AttributeError` before `db.commit()` on
line 289; the session is closed without committing, so the route never
persists anything and never returns a result.  A missing schedule row already
raises at line 235 (`schedule_model.subject` on None). -/
def finish_exam_session (db : DB) (student_id attempt_id : Nat) (now_utc : Int) :
    Except ApiError ExamResult × DB :=
  match db.attempts.find? (fun a =>
      a.id == attempt_id && a.student_id == student_id) with
  | none => (.error (.http 404 "Exam Attempt not found or access denied."), db)
  | some attempt_model =>
    if attempt_model.end_time.isSome then
      (.error (.http 400 "This exam has already been finalized."), db)
    else
      match db.schedules.find? (fun s => s.id == attempt_model.schedule_id) with
      | none =>
        (.error (.attributeError "NoneType object has no attribute subject"), db)
      | some schedule_model =>
        (.error (.attributeError
            "type object Question has no attribute schedule_id"), db)

/-- src/routes/route.py lines 304-345 (`get_exam_report`).  The report lookup
(lines 308-311) restricts to reports whose attempt belongs to the caller;
line 321 dereferences the schedule (AttributeError if missing), line 323
rejects unfinished attempts, and line 329-331 then evaluates
`models.Question.schedule_id` (undeclared column), raising `AttributeError`.
The route performs no writes. -/
def get_exam_report (db : DB) (student_id attempt_id : Nat) :
    Except ApiError ExamResult × DB :=
  match db.reports.find? (fun r => r.attempt_id == attempt_id &&
      db.attempts.any (fun a => a.id == r.attempt_id && a.student_id == student_id)) with
  | none =>
    (.error (.http 404 "Exam Report not found. The exam may not be completed."), db)
  | some report_model =>
    match db.attempts.find? (fun a => a.id == report_model.attempt_id) with
    | none =>
      (.error (.attributeError "NoneType object has no attribute schedule"), db)
    | some attempt_model =>
      match db.schedules.find? (fun s => s.id == attempt_model.schedule_id) with
      | none =>
        (.error (.attributeError "NoneType object has no attribute subject"), db)
      | some _schedule_model =>
        if attempt_model.end_time.isNone then
          (.error (.http 400 "The exam is not yet finished."), db)
        else
          (.error (.attributeError
              "type object Question has no attribute schedule_id"), db)

/-- One call to a core exam-session operation (start, submit, finish,
report), with the ambient clock values as arguments. -/
inductive Op where
  | start (student_id current_class_id schedule_id : Nat) (today nowTime : Int)
  | submit (student_id attempt_id question_id selected_option_id : Nat) (now_utc : Int)
  | finish (student_id attempt_id : Nat) (now_utc : Int)
  | report (student_id attempt_id : Nat)
deriving Repr, DecidableEq

/-- The committed database state after one operation. -/
def apply_op (db : DB) : Op → DB
  | .start sid cid schid today nowTime =>
    (start_exam_session db sid cid schid today nowTime).2
  | .submit sid aid qid oid now => (submit_answer db sid aid qid oid now).2
  | .finish sid aid now => (finish_exam_session db sid aid now).2
  | .report sid aid => (get_exam_report db sid aid).2

/-- The committed database state after a sequence of operations. -/
def apply_ops (db : DB) (ops : List Op) : DB := ops.foldl apply_op db

/-- Primary-key uniqueness of the `scheduled_attempts` table. -/
def attempt_ids_nodup (db : DB) : Prop :=
  (db.attempts.map (fun a => a.id)).Nodup

/-- Once an attempt is closed, every row carrying its id in the later state
is still closed with the same `end_time`. -/
def closed_stay (db db' : DB) : Prop :=
  ∀ a ∈ db.attempts, ∀ t : Int, a.end_time = some t →
    ∀ a' ∈ db'.attempts, a'.id = a.id → a'.end_time = some t

/-- Every closed attempt still has a row with its id, still closed with the
same `end_time`, in the later state. -/
def closed_persists (db db' : DB) : Prop :=
  ∀ a ∈ db.attempts, ∀ t : Int, a.end_time = some t →
    ∃ a' ∈ db'.attempts, a'.id = a.id ∧ a'.end_time = some t

/-! ### List helper lemmas -/

theorem mem_update_first {α : Type} {p : α → Bool} {f : α → α} {l : List α} {x : α}
    (hx : x ∈ update_first p f l) :
    x ∈ l ∨ ∃ y, y ∈ l ∧ p y = true ∧ x = f y := by
  induction l with
  | nil => simp [update_first] at hx
  | cons a as ih =>
    by_cases h : p a
    · simp only [update_first, if_pos h] at hx
      rcases List.mem_cons.mp hx with h1 | h1
      · exact Or.inr ⟨a, List.mem_cons_self a as, h, h1⟩
      · exact Or.inl (List.mem_cons_of_mem a h1)
    · simp only [update_first, if_neg h] at hx
      rcases List.mem_cons.mp hx with h1 | h1
      · exact Or.inl (h1 ▸ List.mem_cons_self a as)
      · rcases ih h1 with h2 | ⟨y, hy, hpy, hxy⟩
        · exact Or.inl (List.mem_cons_of_mem a h2)
        · exact Or.inr ⟨y, List.mem_cons_of_mem a hy, hpy, hxy⟩

theorem mem_update_first_of_not {α : Type} {p : α → Bool} {f : α → α} {l : List α} {x : α}
    (hx : x ∈ l) (hpx : p x = false) : x ∈ update_first p f l := by
  induction l with
  | nil => simp at hx
  | cons a as ih =>
    by_cases h : p a
    · simp only [update_first, if_pos h]
      rcases List.mem_cons.mp hx with h1 | h1
      · rw [h1] at hpx; rw [hpx] at h; cases h
      · exact List.mem_cons_of_mem _ h1
    · simp only [update_first, if_neg h]
      rcases List.mem_cons.mp hx with h1 | h1
      · exact List.mem_cons.mpr (Or.inl h1)
      · exact List.mem_cons_of_mem _ (ih h1)

theorem update_first_map {α β : Type} (p : α → Bool) (f : α → α) (g : α → β)
    (hf : ∀ x, g (f x) = g x) (l : List α) :
    (update_first p f l).map g = l.map g := by
  induction l with
  | nil => rfl
  | cons a as ih =>
    by_cases h : p a
    · simp [update_first, if_pos h, hf a]
    · simp [update_first, if_neg h, ih]

theorem mem_id_lt_next {a : ScheduledAttempt} {l : List ScheduledAttempt}
    (h : a ∈ l) : a.id < next_attempt_id l := by
  have key : a.id ≤ l.foldr (fun b m => max b.id m) 0 := by
    induction l with
    | nil => cases h
    | cons b bs ih =>
      rcases List.mem_cons.mp h with h1 | h1
      · simp only [h1, List.foldr_cons]
        exact Nat.le_max_left _ _
      · exact le_trans (ih h1) (Nat.le_max_right _ _)
  simpa [next_attempt_id] using Nat.lt_succ_of_le key

theorem attempt_eq_of_nodup {db : DB} (hn : attempt_ids_nodup db)
    {a b : ScheduledAttempt} (ha : a ∈ db.attempts) (hb : b ∈ db.attempts)
    (hid : a.id = b.id) : a = b :=
  List.inj_on_of_nodup_map hn ha hb hid

theorem find?_attempt_eq {db : DB} (hn : attempt_ids_nodup db)
    {a : ScheduledAttempt} (ha : a ∈ db.attempts) {sid aid : Nat}
    (haid : a.id = aid) (hsid : a.student_id = sid) :
    db.attempts.find? (fun b => b.id == aid && b.student_id == sid) = some a := by
  cases hfind : db.attempts.find? (fun b => b.id == aid && b.student_id == sid) with
  | none =>
    have := List.find?_eq_none.mp hfind a ha
    simp [haid, hsid] at this
  | some b =>
    have hbmem := List.mem_of_find?_eq_some hfind
    have hbp := List.find?_some hfind
    simp only [Bool.and_eq_true, beq_iff_eq] at hbp
    have : b = a := attempt_eq_of_nodup hn hbmem ha (by rw [hbp.1, haid])
    rw [this]

/-! ### Database-effect characterization of each route -/


theorem start_window_db (db : DB) (es : ExamSchedule) (schid : Nat) (today nowTime : Int) :
    (start_window_and_payload db es schid today nowTime).2 = db := by
  unfold start_window_and_payload
  dsimp only
  repeat' split
  all_goals rfl

theorem start_db_cases (db : DB) (sid cid schid : Nat) (today nowTime : Int) :
    (start_exam_session db sid cid schid today nowTime).2 = db ∨
    (db.attempts.find? (fun a => a.student_id == sid && a.schedule_id == schid) = none ∧
     (start_exam_session db sid cid schid today nowTime).2 =
       { db with attempts := db.attempts ++
           [⟨next_attempt_id db.attempts, sid, schid, today * 86400 + nowTime, none, 0⟩] }) := by
  unfold start_exam_session
  split
  · exact Or.inl rfl
  next es heq =>
    split
    · exact Or.inl rfl
    · split
      next ea heq2 =>
        split
        · exact Or.inl (start_window_db ..)
        · exact Or.inl rfl
      next heq2 =>
        right
        refine ⟨heq2, ?_⟩
        exact start_window_db ..

theorem submit_db_cases (db : DB) (sid aid qid oid : Nat) (now : Int) :
    (submit_answer db sid aid qid oid now).2 = db ∨
    ∃ a, db.attempts.find? (fun b => b.id == aid && b.student_id == sid) = some a ∧
      a.end_time = none ∧
      (∃ s, db.schedules.find? (fun x => x.id == a.schedule_id) = some s ∧
        now > a.start_time + s.duration_minutes * 60) ∧
      (submit_answer db sid aid qid oid now).2 =
        { db with attempts := close_attempt now a.id db.attempts } := by
  unfold submit_answer
  split
  · exact Or.inl rfl
  next a heq =>
    split
    · exact Or.inl rfl
    next hopen =>
      split
      · exact Or.inl rfl
      next s hs =>
        split
        next hlate =>
          right
          exact ⟨a, heq, by simpa using hopen, ⟨s, hs, hlate⟩, rfl⟩
        next => exact Or.inl rfl

theorem finish_db_eq (db : DB) (sid aid : Nat) (now : Int) :
    (finish_exam_session db sid aid now).2 = db := by
  unfold finish_exam_session
  repeat' split
  all_goals rfl

theorem report_db_eq (db : DB) (sid aid : Nat) :
    (get_exam_report db sid aid).2 = db := by
  unfold get_exam_report
  repeat' split
  all_goals rfl



theorem close_attempt_map_id (now : Int) (aid : Nat) (l : List ScheduledAttempt) :
    (close_attempt now aid l).map (fun a => a.id) = l.map (fun a => a.id) := by
  unfold close_attempt
  exact update_first_map _ (fun a => { a with end_time := some now })
    (fun a => a.id) (fun x => rfl) l

theorem apply_op_ids_nodup (db : DB) (op : Op) (hn : attempt_ids_nodup db) :
    attempt_ids_nodup (apply_op db op) := by
  cases op with
  | start sid cid schid today nowTime =>
    rcases start_db_cases db sid cid schid today nowTime with h | ⟨hfind, h⟩
    · unfold attempt_ids_nodup
      rw [show apply_op db (.start sid cid schid today nowTime) = db from h]
      exact hn
    · unfold attempt_ids_nodup
      rw [show apply_op db (.start sid cid schid today nowTime) =
        { db with attempts := db.attempts ++
          [⟨next_attempt_id db.attempts, sid, schid, today * 86400 + nowTime, none, 0⟩] } from h]
      simp only [List.map_append, List.map_cons, List.map_nil]
      refine List.Nodup.append hn (List.nodup_singleton _) ?_
      intro x hx hy
      simp only [List.mem_singleton] at hy
      rcases List.mem_map.mp hx with ⟨a, hamem, hxa⟩
      have := mem_id_lt_next hamem
      omega
  | submit sid aid qid oid now =>
    rcases submit_db_cases db sid aid qid oid now with h | ⟨a, hfind, hopen, hsch, h⟩
    · unfold attempt_ids_nodup
      rw [show apply_op db (.submit sid aid qid oid now) = db from h]
      exact hn
    · unfold attempt_ids_nodup
      rw [show apply_op db (.submit sid aid qid oid now) =
        { db with attempts := close_attempt now a.id db.attempts } from h]
      simpa [close_attempt_map_id] using hn
  | finish sid aid now =>
    unfold attempt_ids_nodup
    rw [show apply_op db (.finish sid aid now) = db from finish_db_eq db sid aid now]
    exact hn
  | report sid aid =>
    unfold attempt_ids_nodup
    rw [show apply_op db (.report sid aid) = db from report_db_eq db sid aid]
    exact hn

theorem closed_of_eq (db db' : DB) (hn : attempt_ids_nodup db) (h : db' = db) :
    closed_stay db db' ∧ closed_persists db db' := by
  subst h
  constructor
  · intro a ha t ht a' ha' hid
    rw [attempt_eq_of_nodup hn ha' ha hid]
    exact ht
  · intro a ha t ht
    exact ⟨a, ha, rfl, ht⟩

theorem close_attempt_mem (aid : Nat) (now : Int) :
    ∀ (l : List ScheduledAttempt), (l.map (fun b => b.id)).Nodup →
    ∀ a ∈ l, a.id = aid →
    ∀ x ∈ close_attempt now aid l,
      (x.id = aid → x = { a with end_time := some now }) ∧ (x.id ≠ aid → x ∈ l) := by
  intro l
  induction l with
  | nil => intro _ a ha; cases ha
  | cons b bs ih =>
    intro hn a ha haid x hx
    have hn' : (bs.map (fun b => b.id)).Nodup := (List.nodup_cons.mp hn).2
    have hbnot : b.id ∉ bs.map (fun b => b.id) := (List.nodup_cons.mp hn).1
    unfold close_attempt update_first at hx
    by_cases hpb : (b.id == aid) = true
    · rw [if_pos hpb] at hx
      have hbid : b.id = aid := by simpa using hpb
      have hab : a = b := by
        rcases List.mem_cons.mp ha with h1 | h1
        · exact h1
        · exact absurd (List.mem_map.mpr ⟨a, h1, by rw [haid, hbid]⟩) hbnot
      rcases List.mem_cons.mp hx with h1 | h1
      · constructor
        · intro _
          rw [h1, hab]
        · intro hne
          exact absurd (by rw [h1]; simpa using hbid) hne
      · constructor
        · intro hxid
          exact absurd (List.mem_map.mpr ⟨x, h1, by rw [hxid, hbid]⟩) hbnot
        · intro _
          exact List.mem_cons_of_mem _ h1
    · rw [if_neg hpb] at hx
      have hbid : ¬ b.id = aid := by simpa using hpb
      have ha' : a ∈ bs := by
        rcases List.mem_cons.mp ha with h1 | h1
        · exact absurd (by rw [← h1]; exact haid) hbid
        · exact h1
      rcases List.mem_cons.mp hx with h1 | h1
      · constructor
        · intro hxid
          exact absurd (by rw [← h1]; exact hxid) hbid
        · intro _
          exact List.mem_cons.mpr (Or.inl h1)
      · rcases ih hn' a ha' haid x (by unfold close_attempt; exact h1) with ⟨c1, c2⟩
        exact ⟨c1, fun hne => List.mem_cons_of_mem _ (c2 hne)⟩

theorem apply_op_closed (db : DB) (op : Op) (hn : attempt_ids_nodup db) :
    closed_stay db (apply_op db op) ∧ closed_persists db (apply_op db op) := by
  cases op with
  | start sid cid schid today nowTime =>
    rcases start_db_cases db sid cid schid today nowTime with h | ⟨hfind, h⟩
    · exact closed_of_eq db _ hn h
    · constructor
      · intro a ha t ht a' ha' hid
        rw [show apply_op db (.start sid cid schid today nowTime) =
          { db with attempts := db.attempts ++
            [⟨next_attempt_id db.attempts, sid, schid, today * 86400 + nowTime, none, 0⟩] } from h] at ha'
        rcases List.mem_append.mp ha' with h1 | h1
        · rw [attempt_eq_of_nodup hn h1 ha hid]
          exact ht
        · exfalso
          simp only [List.mem_singleton] at h1
          have hlt := mem_id_lt_next ha
          rw [h1] at hid
          simp only at hid
          omega
      · intro a ha t ht
        refine ⟨a, ?_, rfl, ht⟩
        rw [show apply_op db (.start sid cid schid today nowTime) =
          { db with attempts := db.attempts ++
            [⟨next_attempt_id db.attempts, sid, schid, today * 86400 + nowTime, none, 0⟩] } from h]
        exact List.mem_append_left _ ha
  | submit sid aid qid oid now =>
    rcases submit_db_cases db sid aid qid oid now with h | ⟨a0, hfind, hopen, hsch, h⟩
    · exact closed_of_eq db _ hn h
    · have ha0 : a0 ∈ db.attempts := List.mem_of_find?_eq_some hfind
      have hmem := close_attempt_mem a0.id now db.attempts hn a0 ha0 rfl
      constructor
      · intro a ha t ht a' ha' hid
        rw [show apply_op db (.submit sid aid qid oid now) =
          { db with attempts := close_attempt now a0.id db.attempts } from h] at ha'
        rcases hmem a' ha' with ⟨c1, c2⟩
        by_cases hcase : a'.id = a0.id
        · exfalso
          have : a = a0 := attempt_eq_of_nodup hn ha ha0 (by rw [← hid, hcase])
          rw [this, hopen] at ht
          cases ht
        · rw [attempt_eq_of_nodup hn (c2 hcase) ha hid]
          exact ht
      · intro a ha t ht
        have hne : ¬ (a.id == a0.id) = true := by
          intro hc
          have : a = a0 := attempt_eq_of_nodup hn ha ha0 (by simpa using hc)
          rw [this, hopen] at ht
          cases ht
        refine ⟨a, ?_, rfl, ht⟩
        rw [show apply_op db (.submit sid aid qid oid now) =
          { db with attempts := close_attempt now a0.id db.attempts } from h]
        unfold close_attempt
        exact mem_update_first_of_not ha (by simpa using hne)
  | finish sid aid now => exact closed_of_eq db _ hn (finish_db_eq db sid aid now)
  | report sid aid => exact closed_of_eq db _ hn (report_db_eq db sid aid)

theorem apply_ops_closed (db : DB) (ops : List Op) (hn : attempt_ids_nodup db) :
    closed_stay db (apply_ops db ops) ∧ closed_persists db (apply_ops db ops) ∧
      attempt_ids_nodup (apply_ops db ops) := by
  induction ops generalizing db with
  | nil =>
    refine ⟨?_, ?_, hn⟩
    · intro a ha t ht a' ha' hid
      rw [attempt_eq_of_nodup hn ha' ha hid]
      exact ht
    · intro a ha t ht
      exact ⟨a, ha, rfl, ht⟩
  | cons op ops ih =>
    have h1 := apply_op_closed db op hn
    have hnn := apply_op_ids_nodup db op hn
    have h2 := ih (apply_op db op) hnn
    have happ : apply_ops db (op :: ops) = apply_ops (apply_op db op) ops := rfl
    rw [happ]
    refine ⟨?_, ?_, h2.2.2⟩
    · intro a ha t ht a' ha' hid
      rcases h1.2 a ha t ht with ⟨a1, ha1, hid1, ht1⟩
      exact h2.1 a1 ha1 t ht1 a' ha' (by rw [hid, ← hid1])
    · intro a ha t ht
      rcases h1.2 a ha t ht with ⟨a1, ha1, hid1, ht1⟩
      rcases h2.2.1 a1 ha1 t ht1 with ⟨a2, ha2, hid2, ht2⟩
      exact ⟨a2, ha2, by rw [hid2, hid1], ht2⟩



theorem only_expiry_closes (db0 : DB) (hn0 : attempt_ids_nodup db0) (op : Op)
    (a0 : ScheduledAttempt) (ha0 : a0 ∈ db0.attempts) (hopen0 : a0.end_time = none)
    (a1 : ScheduledAttempt) (ha1 : a1 ∈ (apply_op db0 op).attempts)
    (hid : a1.id = a0.id) (hclosed : a1.end_time ≠ none) :
    ∃ sid aid qid oid now, op = .submit sid aid qid oid now ∧
      ∃ s, db0.schedules.find? (fun x => x.id == a0.schedule_id) = some s ∧
        now > a0.start_time + s.duration_minutes * 60 ∧ a1.end_time = some now := by
  cases op with
  | start sid cid schid today nowTime =>
    exfalso
    rcases start_db_cases db0 sid cid schid today nowTime with h | ⟨hfind, h⟩
    · rw [show apply_op db0 (.start sid cid schid today nowTime) = db0 from h] at ha1
      exact hclosed (by rw [attempt_eq_of_nodup hn0 ha1 ha0 hid]; exact hopen0)
    · rw [show apply_op db0 (.start sid cid schid today nowTime) =
        { db0 with attempts := db0.attempts ++
          [⟨next_attempt_id db0.attempts, sid, schid, today * 86400 + nowTime, none, 0⟩] }
        from h] at ha1
      rcases List.mem_append.mp ha1 with h1 | h1
      · exact hclosed (by rw [attempt_eq_of_nodup hn0 h1 ha0 hid]; exact hopen0)
      · simp only [List.mem_singleton] at h1
        exact hclosed (by rw [h1])
  | submit sid aid qid oid now =>
    rcases submit_db_cases db0 sid aid qid oid now with h | ⟨a, hfind, hopenA, ⟨s, hs, hlate⟩, h⟩
    · exfalso
      rw [show apply_op db0 (.submit sid aid qid oid now) = db0 from h] at ha1
      exact hclosed (by rw [attempt_eq_of_nodup hn0 ha1 ha0 hid]; exact hopen0)
    · have haA : a ∈ db0.attempts := List.mem_of_find?_eq_some hfind
      rw [show apply_op db0 (.submit sid aid qid oid now) =
        { db0 with attempts := close_attempt now a.id db0.attempts } from h] at ha1
      rcases close_attempt_mem a.id now db0.attempts hn0 a haA rfl a1 ha1 with ⟨c1, c2⟩
      by_cases hc : a1.id = a.id
      · have haa0 : a = a0 := attempt_eq_of_nodup hn0 haA ha0 (by rw [← hc]; exact hid)
        refine ⟨sid, aid, qid, oid, now, rfl, s, ?_, ?_, ?_⟩
        · rw [← haa0]; exact hs
        · rw [← haa0]; exact hlate
        · rw [c1 hc]
      · exfalso
        exact hclosed (by rw [attempt_eq_of_nodup hn0 (c2 hc) ha0 hid]; exact hopen0)
  | finish sid aid now =>
    exfalso
    rw [show apply_op db0 (.finish sid aid now) = db0 from finish_db_eq db0 sid aid now] at ha1
    exact hclosed (by rw [attempt_eq_of_nodup hn0 ha1 ha0 hid]; exact hopen0)
  | report sid aid =>
    exfalso
    rw [show apply_op db0 (.report sid aid) = db0 from report_db_eq db0 sid aid] at ha1
    exact hclosed (by rw [attempt_eq_of_nodup hn0 ha1 ha0 hid]; exact hopen0)

/-- C3: for every ScheduledAttempt and every sequence of core operations,
once end_time is non-null it never reverts to null and never changes to a
different value; submit on a closed attempt fails with the StateError detail
"This exam has already concluded and cannot accept more answers."
(route.py lines 158-159), finish on a closed attempt fails with the
StateError detail "This exam has already been finalized." (route.py
lines 231-232), and no operation clears or rewrites an already-set
end_time. -/
theorem C3_end_time_terminal (db : DB) (hn : attempt_ids_nodup db) :
    (∀ ops : List Op,
      closed_stay db (apply_ops db ops) ∧ closed_persists db (apply_ops db ops)) ∧
    (∀ (sid aid qid oid : Nat) (now : Int) (a : ScheduledAttempt),
      a ∈ db.attempts → a.id = aid → a.student_id = sid →
      ∀ t : Int, a.end_time = some t →
      (submit_answer db sid aid qid oid now).1 =
        .error (.http 400 "This exam has already concluded and cannot accept more answers.")) ∧
    (∀ (sid aid : Nat) (now : Int) (a : ScheduledAttempt),
      a ∈ db.attempts → a.id = aid → a.student_id = sid →
      ∀ t : Int, a.end_time = some t →
      (finish_exam_session db sid aid now).1 =
        .error (.http 400 "This exam has already been finalized.")) := by
  refine ⟨fun ops => ⟨(apply_ops_closed db ops hn).1, (apply_ops_closed db ops hn).2.1⟩, ?_, ?_⟩
  · intro sid aid qid oid now a ha haid hsid t ht
    have hfind := find?_attempt_eq hn ha haid hsid
    unfold submit_answer
    rw [hfind]
    simp [ht]
  · intro sid aid now a ha haid hsid t ht
    have hfind := find?_attempt_eq hn ha haid hsid
    unfold finish_exam_session
    rw [hfind]
    simp [ht]

/-- C5: a submit call on an owned open attempt past start_time + duration
force-closes the attempt by setting end_time to now, fails with the 403 WindowError
detail of route.py line 168, records no answer (answers and reports tables
and the attempt score unchanged), and this expiry path is the only way any
attempt ever closes without an explicit finish call (indeed the only close
path at all, since finish raises before committing). -/
theorem C5_expiry_auto_close (db : DB) (hn : attempt_ids_nodup db)
    (sid aid qid oid : Nat) (now : Int) (a : ScheduledAttempt)
    (ha : a ∈ db.attempts) (haid : a.id = aid) (hsid : a.student_id = sid)
    (hopen : a.end_time = none) (s : ExamSchedule)
    (hs : db.schedules.find? (fun x => x.id == a.schedule_id) = some s)
    (hlate : now > a.start_time + s.duration_minutes * 60) :
    ((submit_answer db sid aid qid oid now).1 =
      .error (.http 403
        "Time limit reached. Exam has been auto-submitted. Answer not recorded.")) ∧
    ((submit_answer db sid aid qid oid now).2.answers = db.answers) ∧
    ((submit_answer db sid aid qid oid now).2.reports = db.reports) ∧
    (∀ a' ∈ (submit_answer db sid aid qid oid now).2.attempts,
      a'.id = aid → a' = { a with end_time := some now }) ∧
    (∀ a' ∈ (submit_answer db sid aid qid oid now).2.attempts,
      a'.id ≠ aid → a' ∈ db.attempts) ∧
    (∀ (db0 : DB), attempt_ids_nodup db0 → ∀ (op : Op),
      ∀ a0 ∈ db0.attempts, a0.end_time = none →
      ∀ a1 ∈ (apply_op db0 op).attempts, a1.id = a0.id → a1.end_time ≠ none →
      ∃ sid' aid' qid' oid' now', op = .submit sid' aid' qid' oid' now' ∧
        ∃ s', db0.schedules.find? (fun x => x.id == a0.schedule_id) = some s' ∧
          now' > a0.start_time + s'.duration_minutes * 60 ∧ a1.end_time = some now') := by
  subst haid
  subst hsid
  have hfind := find?_attempt_eq hn ha rfl rfl
  have hsub : submit_answer db a.student_id a.id qid oid now =
      (.error (.http 403
        "Time limit reached. Exam has been auto-submitted. Answer not recorded."),
       { db with attempts := close_attempt now a.id db.attempts }) := by
    unfold submit_answer
    rw [hfind]
    simp only [hopen, Option.isSome_none, Bool.false_eq_true, if_false, hs]
    rw [if_pos hlate]
  refine ⟨by rw [hsub], by rw [hsub], by rw [hsub], ?_, ?_, ?_⟩
  · intro a' ha' hid
    rw [hsub] at ha'
    exact (close_attempt_mem a.id now db.attempts hn a ha rfl a' ha').1 hid
  · intro a' ha' hid
    rw [hsub] at ha'
    exact (close_attempt_mem a.id now db.attempts hn a ha rfl a' ha').2 hid
  · intro db0 hn0 op a0 ha0 hopen0 a1 ha1 hid hclosed
    exact only_expiry_closes db0 hn0 op a0 ha0 hopen0 a1 ha1 hid hclosed


/-- C10: login rejects only the not-yet-started case; once the current time
is at or after the schedule start, a token is issued even if the window has
elapsed — the computed end_dt (route.py line 44) is never compared with
now_dt. -/
theorem C10_login_no_upper_bound (db : DB) (reg pw : String) (today nowTime : Int)
    (st : Student) (hst : db.students.find? (fun x => x.reg_number == reg) = some st)
    (sch : ExamSchedule)
    (hsch : db.schedules.find? (fun s => s.exam_password == pw &&
      s.exam_date == today && s.class_id == st.class_id) = some sch) :
    (sch.start_time ≤ nowTime →
      exam_login db reg pw today nowTime =
        .ok { sub := st.reg_number, student_id := st.id,
              class_id := st.class_id, schedule_id := sch.id }) ∧
    (nowTime < sch.start_time →
      exam_login db reg pw today nowTime =
        .error (.http 403 "This exam has not yet started. Scheduled start time is ...")) := by
  constructor
  · intro hle
    unfold exam_login
    simp only [hst]
    simp only [hsch]
    have hnotlt : ¬ (today * 86400 + nowTime < today * 86400 + sch.start_time) := by omega
    simp [hnotlt]
  · intro hlt
    unfold exam_login
    simp only [hst]
    simp only [hsch]
    have hlt2 : today * 86400 + nowTime < today * 86400 + sch.start_time := by omega
    simp [hlt2]

def dbW10 : DB :=
  { students := [⟨4, "Bea", "R42", 2⟩]
    subjects := [⟨1, "Math"⟩]
    schedules := [⟨9, 1, 2, 5, 28800, 30, "open-sesame"⟩]
    groups := []
    questions := []
    options := []
    attempts := []
    answers := []
    reports := [] }

theorem C10_login_no_upper_bound_witness :
    (28800 : Int) + 30 * 60 ≤ 80000 ∧
    exam_login dbW10 "R42" "open-sesame" 5 80000 = .ok ⟨"R42", 4, 2, 9⟩ := by
  refine ⟨by decide, ?_⟩
  exact (C10_login_no_upper_bound dbW10 "R42" "open-sesame" 5 80000
    ⟨4, "Bea", "R42", 2⟩ rfl ⟨9, 1, 2, 5, 28800, 30, "open-sesame"⟩ rfl).1 (by decide)

def dbW8 : DB :=
  { students := [⟨1, "Ada", "S1", 1⟩]
    subjects := [⟨1, "Math"⟩]
    schedules := [⟨1, 1, 1, 0, 0, 60, "pw"⟩]
    groups := []
    questions := []
    options := []
    attempts := []
    answers := []
    reports := [] }

/-- C8 counterexample: the two login failures share status code 401 but carry
different detail strings, so the caller can tell which check failed; the
claim that both return the same message is false on this concrete state. -/
theorem C8_counterexample :
    exam_login dbW8 "ghost" "pw" 0 100 =
      .error (.http 401 "Invalid Registration Number or Exam Password.") ∧
    exam_login dbW8 "S1" "wrong" 0 100 =
      .error (.http 401
        "Invalid Exam Password, or the exam is not scheduled for your class today.") ∧
    "Invalid Registration Number or Exam Password." ≠
      "Invalid Exam Password, or the exam is not scheduled for your class today." :=
  ⟨rfl, rfl, by decide⟩

/-- C8 amended: the unknown-registration-number failure and the no-matching-
schedule failure both carry HTTP status 401, but their detail messages are
the two distinct strings of route.py lines 26 and 40. -/
theorem C8_amended_distinct_messages (db : DB) (reg pw : String) (today nowTime : Int) :
    (db.students.find? (fun x => x.reg_number == reg) = none →
      exam_login db reg pw today nowTime =
        .error (.http 401 "Invalid Registration Number or Exam Password.")) ∧
    (∀ st, db.students.find? (fun x => x.reg_number == reg) = some st →
      db.schedules.find? (fun s => s.exam_password == pw && s.exam_date == today &&
        s.class_id == st.class_id) = none →
      exam_login db reg pw today nowTime =
        .error (.http 401
          "Invalid Exam Password, or the exam is not scheduled for your class today.")) ∧
    "Invalid Registration Number or Exam Password." ≠
      "Invalid Exam Password, or the exam is not scheduled for your class today." := by
  refine ⟨?_, ?_, by decide⟩
  · intro h
    unfold exam_login
    rw [h]
  · intro st h1 h2
    unfold exam_login
    simp only [h1]
    simp only [h2]

theorem C8_amended_distinct_messages_witness :
    exam_login dbW8 "ghost2" "pw" 0 100 =
      .error (.http 401 "Invalid Registration Number or Exam Password.") ∧
    exam_login dbW8 "S1" "nah" 0 100 =
      .error (.http 401
        "Invalid Exam Password, or the exam is not scheduled for your class today.") := by
  have h := C8_amended_distinct_messages dbW8 "ghost2" "pw" 0 100
  have h2 := C8_amended_distinct_messages dbW8 "S1" "nah" 0 100
  exact ⟨h.1 rfl, h2.2.1 ⟨1, "Ada", "S1", 1⟩ rfl rfl⟩

theorem total_questions_attempts_invariant (db : DB) (l : List ScheduledAttempt)
    (schid : Nat) :
    total_questions_of { db with attempts := l } schid = total_questions_of db schid := rfl

def dbW4 : DB :=
  { students := [⟨2, "Cal", "S2", 1⟩]
    subjects := [⟨1, "Math"⟩]
    schedules := [⟨1, 1, 1, 0, 0, 60, "pw"⟩]
    groups := []
    questions := []
    options := []
    attempts := []
    answers := []
    reports := [] }

/-- C4 counterexample: starting a zero-question schedule (in class, in
window) fails with the 404 "No questions found" error, but a freshly created
ScheduledAttempt row has already been committed (route.py lines 100-108 run
before the question-count check on lines 125-130) and persists after the
failed call — refuting the claim that no new row persists. -/
theorem C4_counterexample :
    (start_exam_session dbW4 2 1 1 0 600).1 =
      .error (.http 404 "No questions found for this exam schedule.") ∧
    (start_exam_session dbW4 2 1 1 0 600).2.attempts = [⟨1, 2, 1, 600, none, 0⟩] ∧
    dbW4.attempts = [] :=
  ⟨rfl, rfl, rfl⟩

/-- C4 amended: a start call on an existing schedule of the caller's class
with zero questions, made inside the schedule's window on the exam date and
with no prior attempt, fails with NotFoundError "No questions found for this
exam schedule." and never returns a payload, but the newly created
ScheduledAttempt row (score 0, open) is committed before the check and does
persist after the failed call. -/
theorem C4_zero_questions (db : DB) (sid cid schid : Nat) (today nowTime : Int)
    (sch : ExamSchedule) (hsch : db.schedules.find? (fun s => s.id == schid) = some sch)
    (hclass : sch.class_id = cid)
    (hnoatt : db.attempts.find? (fun a =>
      a.student_id == sid && a.schedule_id == schid) = none)
    (hdate : sch.exam_date = today)
    (hwin1 : sch.exam_date * 86400 + sch.start_time ≤ today * 86400 + nowTime)
    (hwin2 : today * 86400 + nowTime ≤
      sch.exam_date * 86400 + sch.start_time + sch.duration_minutes * 60)
    (hzero : total_questions_of db schid = 0) :
    (start_exam_session db sid cid schid today nowTime).1 =
      .error (.http 404 "No questions found for this exam schedule.") ∧
    (∃ a' ∈ (start_exam_session db sid cid schid today nowTime).2.attempts,
      a'.student_id = sid ∧ a'.schedule_id = schid ∧ a'.score = 0 ∧
      a'.end_time = none ∧ a' ∉ db.attempts) := by
  have hstart : start_exam_session db sid cid schid today nowTime =
      (.error (.http 404 "No questions found for this exam schedule."),
       { db with attempts := db.attempts ++
          [⟨next_attempt_id db.attempts, sid, schid, today * 86400 + nowTime, none, 0⟩] }) := by
    unfold start_exam_session
    simp only [hsch]
    simp only [hclass, bne_self_eq_false, Bool.false_eq_true, if_false]
    simp only [hnoatt]
    unfold start_window_and_payload
    simp only [total_questions_attempts_invariant, hzero, hdate, bne_self_eq_false,
      Bool.false_eq_true, if_false]
    have hwin : ¬ ¬ (today * 86400 + sch.start_time ≤ today * 86400 + nowTime ∧
        today * 86400 + nowTime ≤
          today * 86400 + sch.start_time + sch.duration_minutes * 60) := by
      rw [hdate] at hwin1 hwin2
      exact not_not_intro ⟨hwin1, hwin2⟩
    rw [if_neg hwin]
    simp
  refine ⟨by rw [hstart], ?_⟩
  refine ⟨⟨next_attempt_id db.attempts, sid, schid, today * 86400 + nowTime, none, 0⟩,
    ?_, rfl, rfl, rfl, rfl, ?_⟩
  · rw [hstart]
    exact List.mem_append_right _ (List.mem_singleton.mpr rfl)
  · intro hmem
    have := mem_id_lt_next hmem
    simp only at this
    omega

theorem C4_zero_questions_witness :
    (start_exam_session dbW4 5 1 1 0 900).1 =
      .error (.http 404 "No questions found for this exam schedule.") ∧
    (∃ a' ∈ (start_exam_session dbW4 5 1 1 0 900).2.attempts,
      a'.student_id = 5 ∧ a'.schedule_id = 1 ∧ a'.score = 0 ∧
      a'.end_time = none ∧ a' ∉ dbW4.attempts) :=
  C4_zero_questions dbW4 5 1 1 0 900 ⟨1, 1, 1, 0, 0, 60, "pw"⟩ rfl rfl rfl rfl
    (by decide) (by decide) rfl

def qW9 : Question := ⟨10, "capital?", 1, 1, 5⟩

def qW9edited : Question := ⟨10, "capital?", 2, 1, 5⟩

/-- C9 counterexample: answer question 10 (correct option 1) selecting
option 1, then — after the question's designated correct option has been
changed to 2 by the admin update route — resubmit selecting option 2.  The
overwrite path of route.py lines 185-204 leaves the stored
correct_option_id at 1, the snapshot of the FIRST submission, while the
question's designated correct option at the time of the latest submission
is 2; the claim that the stored snapshot tracks the latest submission is
false. -/
theorem C9_counterexample :
    (answer_upsert (answer_upsert [] 0 1 qW9 1 0 1).1 1 1 qW9edited 2 5 2).1 =
      [⟨1, 1, 10, 2, true, 1, 5⟩] ∧
    qW9edited.correct_option_id = 2 ∧ (1 : Nat) ≠ 2 :=
  ⟨rfl, rfl, by decide⟩

/-- C9 amended: on the first submission for an (attempt, question) pair the
inserted row snapshots the question's designated correct option at that
moment; every later overwrite updates selection, correctness and timestamp
but leaves every stored correct_option_id unchanged, so the snapshot is as
of the FIRST submission, not the latest. -/
theorem C9_snapshot_is_first_submission (answers : List UserAnswer) (score : Int)
    (attempt_id : Nat) (q : Question) (sel : Nat) (now : Int) (fresh : Nat) :
    (answers.find? (fun ua =>
        ua.attempt_id == attempt_id && ua.question_id == q.id) = none →
      (answer_upsert answers score attempt_id q sel now fresh).1 =
        answers ++
          [⟨fresh, attempt_id, q.id, sel, sel == q.correct_option_id,
            q.correct_option_id, now⟩]) ∧
    (∀ ex, answers.find? (fun ua =>
        ua.attempt_id == attempt_id && ua.question_id == q.id) = some ex →
      ((answer_upsert answers score attempt_id q sel now fresh).1).map
          (fun ua => ua.correct_option_id) =
        answers.map (fun ua => ua.correct_option_id)) := by
  constructor
  · intro h
    unfold answer_upsert
    simp only [h]
  · intro ex h
    unfold answer_upsert
    simp only [h]
    exact update_first_map _
      (fun ua => { ua with
        selected_option_id := sel
        is_correct := sel == q.correct_option_id
        answered_at := now })
      (fun ua => ua.correct_option_id) (fun x => rfl) answers

theorem C9_snapshot_is_first_submission_witness :
    (answer_upsert [] 0 4 qW9 3 7 1).1 =
      [⟨1, 4, 10, 3, false, 1, 7⟩] ∧
    (answer_upsert [⟨1, 4, 10, 3, false, 1, 7⟩] 0 4 qW9edited 2 9 2).1.map
        (fun ua => ua.correct_option_id) =
      ([⟨1, 4, 10, 3, false, 1, 7⟩] : List UserAnswer).map
        (fun ua => ua.correct_option_id) := by
  have h1 := (C9_snapshot_is_first_submission [] 0 4 qW9 3 7 1).1 rfl
  have h2 := (C9_snapshot_is_first_submission [⟨1, 4, 10, 3, false, 1, 7⟩] 0 4
    qW9edited 2 9 2).2 ⟨1, 4, 10, 3, false, 1, 7⟩ rfl
  exact ⟨h1, h2⟩

def dbW1 : DB :=
  { students := [⟨1, "Ada", "S1", 1⟩]
    subjects := [⟨1, "Math"⟩]
    schedules := [⟨1, 1, 1, 0, 0, 60, "pw"⟩]
    groups := [⟨5, 1, "Answer all", none, 1⟩]
    questions := [⟨10, "2+2?", 1, 1, 5⟩]
    options := [⟨1, "4", 10⟩, ⟨2, "5", 10⟩]
    attempts := [⟨1, 1, 1, 0, none, 0⟩]
    answers := []
    reports := [] }

/-- C1 (code bug): a submit call that passes the ownership, state and window
checks — open owned attempt, within the window, on a question that does
belong to the attempt's schedule — never reaches the answer upsert of
route.py lines 178-209: the question lookup on lines 170-173 reads the
undeclared `models.Question.schedule_id` and raises AttributeError first, so
no UserAnswer row is ever inserted or updated and the score is never
maintained. -/
theorem C1_submit_never_records :
    submit_answer dbW1 1 1 10 1 60 =
      (.error (.attributeError "type object Question has no attribute schedule_id"),
       dbW1) ∧
    (∃ g ∈ dbW1.groups, g.schedule_id = 1 ∧ ∃ q ∈ dbW1.questions,
      q.group_id = g.id ∧ q.id = 10 ∧ q.correct_option_id = 1) ∧
    dbW1.answers = [] ∧ (submit_answer dbW1 1 1 10 1 60).2.answers = [] :=
  ⟨rfl, by decide, rfl, rfl⟩

def dbW2 : DB :=
  { students := [⟨2, "Bo", "S2", 1⟩]
    subjects := [⟨1, "Math"⟩, ⟨2, "Bio"⟩]
    schedules := [⟨1, 1, 1, 0, 0, 60, "pw"⟩, ⟨2, 2, 2, 0, 0, 60, "pw2"⟩]
    groups := [⟨5, 1, "Answer all", none, 1⟩, ⟨6, 2, "Answer all", none, 1⟩]
    questions := [⟨10, "2+2?", 1, 1, 5⟩, ⟨99, "cells?", 7, 1, 6⟩]
    options := []
    attempts := [⟨3, 2, 1, 0, none, 0⟩]
    answers := []
    reports := [] }

/-- C2 (code bug): the question-membership test of route.py lines 170-176
filters on `models.Question.schedule_id`, a column the Question model
(models.py lines 77-86) does not declare, so the lookup raises
AttributeError for every submit call that reaches it: a question of the
attempt's schedule (id 10, via group 5) is not processed, and a question of
a different schedule (id 99, via group 6 of schedule 2) does not produce
the specified NotFoundError either. -/
theorem C2_membership_test_crashes :
    (submit_answer dbW2 2 3 10 1 30).1 =
      .error (.attributeError "type object Question has no attribute schedule_id") ∧
    (submit_answer dbW2 2 3 99 7 30).1 =
      .error (.attributeError "type object Question has no attribute schedule_id") ∧
    (∃ g ∈ dbW2.groups, g.schedule_id = 1 ∧
      ∃ q ∈ dbW2.questions, q.group_id = g.id ∧ q.id = 10) ∧
    (¬ ∃ g ∈ dbW2.groups, g.schedule_id = 1 ∧
      ∃ q ∈ dbW2.questions, q.group_id = g.id ∧ q.id = 99) :=
  ⟨rfl, rfl, by decide, by decide⟩

def dbW6 : DB :=
  { students := [⟨1, "Ada", "S1", 1⟩]
    subjects := [⟨1, "Math"⟩]
    schedules := [⟨1, 1, 1, 0, 0, 60, "pw"⟩]
    groups := [⟨5, 1, "Answer all", none, 1⟩]
    questions := [⟨10, "2+2?", 1, 1, 5⟩]
    options := []
    attempts := [⟨1, 1, 1, 0, none, 1⟩]
    answers := [⟨1, 1, 10, 1, true, 1, 30⟩]
    reports := [] }

/-- C6 (code bug): finish never succeeds, so no elapsed seconds or
is_time_up value is ever reported or persisted: both a finish before the
window end (now = 100 < 3600) and after it (now = 5000 > 3600) raise
AttributeError at the total-question query of route.py lines 246-248
(undeclared `models.Question.schedule_id`); the session closes without
committing and the database — including the still-open attempt — is
unchanged. -/
theorem C6_finish_never_succeeds :
    finish_exam_session dbW6 1 1 100 =
      (.error (.attributeError "type object Question has no attribute schedule_id"),
       dbW6) ∧
    finish_exam_session dbW6 1 1 5000 =
      (.error (.attributeError "type object Question has no attribute schedule_id"),
       dbW6) :=
  ⟨rfl, rfl⟩

def dbW7 : DB :=
  { students := [⟨9, "Eve", "S9", 3⟩]
    subjects := [⟨3, "Chem"⟩]
    schedules := [⟨4, 3, 3, 0, 0, 45, "pw7"⟩]
    groups := [⟨8, 4, "Answer all", none, 1⟩]
    questions := [⟨21, "a?", 1, 1, 8⟩, ⟨22, "b?", 2, 2, 8⟩, ⟨23, "c?", 3, 3, 8⟩]
    options := []
    attempts := [⟨2, 9, 4, 0, none, 2⟩]
    answers := [⟨1, 2, 21, 1, true, 1, 10⟩, ⟨2, 2, 22, 2, true, 2, 20⟩]
    reports := [] }

/-- C7 (code bug): the percentage computations the claim describes
(route.py line 297 and SubjectScoreDetail.subject_percentage in schemas.py
lines 82-87) never execute: every finish call on an open attempt raises
AttributeError at route.py lines 246-248 before the subject aggregation, so
no ExamResult carrying a percentage_score is ever returned — here an
attempt with score 2 over 3 questions yields only the 500 error, and the
report route finds no persisted report. -/
theorem C7_percentages_never_returned :
    finish_exam_session dbW7 9 2 600 =
      (.error (.attributeError "type object Question has no attribute schedule_id"),
       dbW7) ∧
    (get_exam_report dbW7 9 2).1 =
      .error (.http 404 "Exam Report not found. The exam may not be completed.") :=
  ⟨rfl, rfl⟩

def dbW3 : DB :=
  { students := [⟨1, "Ada", "S1", 1⟩]
    subjects := [⟨1, "Math"⟩]
    schedules := [⟨1, 1, 1, 0, 0, 60, "pw"⟩]
    groups := [⟨5, 1, "Answer all", none, 1⟩]
    questions := [⟨10, "2+2?", 1, 1, 5⟩]
    options := []
    attempts := [⟨1, 1, 1, 0, some 30, 2⟩]
    answers := []
    reports := [] }

theorem C3_end_time_terminal_witness :
    (submit_answer dbW3 1 1 10 1 50).1 =
      .error (.http 400 "This exam has already concluded and cannot accept more answers.") ∧
    (finish_exam_session dbW3 1 1 50).1 =
      .error (.http 400 "This exam has already been finalized.") := by
  have h := C3_end_time_terminal dbW3 (by unfold attempt_ids_nodup; decide)
  exact ⟨h.2.1 1 1 10 1 50 ⟨1, 1, 1, 0, some 30, 2⟩ (by decide) rfl rfl 30 rfl,
         h.2.2 1 1 50 ⟨1, 1, 1, 0, some 30, 2⟩ (by decide) rfl rfl 30 rfl⟩

def dbW5 : DB :=
  { students := [⟨3, "Dan", "S3", 1⟩]
    subjects := [⟨1, "Math"⟩]
    schedules := [⟨1, 1, 1, 0, 0, 30, "pw"⟩]
    groups := [⟨5, 1, "Answer all", none, 1⟩]
    questions := [⟨10, "2+2?", 1, 1, 5⟩]
    options := []
    attempts := [⟨7, 3, 1, 0, none, 2⟩]
    answers := []
    reports := [] }

theorem C5_expiry_auto_close_witness :
    (submit_answer dbW5 3 7 10 1 2000).1 =
      .error (.http 403
        "Time limit reached. Exam has been auto-submitted. Answer not recorded.") ∧
    (submit_answer dbW5 3 7 10 1 2000).2.answers = dbW5.answers ∧
    (∀ a' ∈ (submit_answer dbW5 3 7 10 1 2000).2.attempts,
      a'.id = 7 → a' = ⟨7, 3, 1, 0, some 2000, 2⟩) := by
  have h := C5_expiry_auto_close dbW5 (by unfold attempt_ids_nodup; decide) 3 7 10 1 2000
    ⟨7, 3, 1, 0, none, 2⟩ (by decide) rfl rfl rfl
    ⟨1, 1, 1, 0, 0, 30, "pw"⟩ rfl (by decide)
  exact ⟨h.1, h.2.1, h.2.2.2.1⟩
end FastQuiz
